import Mathlib

set_option maxRecDepth 4000

/-
  Verification model of the AmbuLink backend (src/backend_ambulink.py).

  The Python source is shallowly embedded: each handler body becomes a pure
  function over an explicit database state, Python exceptions become
  `Except String` errors, Python `None`-able values become `Option`, and the
  external libraries at the boundary (Fernet authenticated encryption, the
  json codec, the sklearn random-forest model) are modelled by executable
  Lean functions carrying exactly the contract the source relies on.
-/

/-! ## Model of the external json codec (json.dumps / json.loads)

The serialized text is modelled as a token list (`Tok`): Python byte strings
are opaque to the repository code, which only passes them between
`json.dumps`, `Fernet`, and `json.loads`. -/

/-- One token of serialized text. -/
abbrev Tok := Nat ⊕ Char

mutual
/-- JSON values (the `data` argument of `PHIEncryption.encrypt_phi` when it is
a dict, and the values stored inside it). -/
inductive JsonV where
  | null : JsonV
  | bool : Bool → JsonV
  | num : Int → JsonV
  | str : String → JsonV
  | arr : JsonArr → JsonV
  | obj : JsonObj → JsonV
deriving DecidableEq
inductive JsonArr where
  | nil : JsonArr
  | cons : JsonV → JsonArr → JsonArr
deriving DecidableEq
inductive JsonObj where
  | nil : JsonObj
  | cons : String → JsonV → JsonObj → JsonObj
deriving DecidableEq
end

/-- Model of `str.encode`: a raw Python string as serialized text. -/
def strToText (s : String) : List Tok := s.data.map Sum.inr

/-- Serialize one string with a leading length token. -/
def serStr (s : String) : List Tok := Sum.inl s.length :: strToText s

/-- Read back `n` character tokens. -/
def takeChars : Nat → List Tok → Option (List Char × List Tok)
  | 0, r => some ([], r)
  | n + 1, Sum.inr c :: r => (takeChars n r).map (fun p => (c :: p.1, p.2))
  | _ + 1, _ => none

/-- Inverse of `serStr`. -/
def parseStr (l : List Tok) : Option (String × List Tok) :=
  match l with
  | Sum.inl n :: rest =>
    match takeChars n rest with
    | some (cs, r) => some (String.mk cs, r)
    | none => none
  | _ => none

mutual
/-- Serializer for JSON values (model of the text produced by `json.dumps`). -/
def serV : JsonV → List Tok
  | JsonV.null => [Sum.inl 0]
  | JsonV.bool b => [Sum.inl 1, Sum.inl (cond b 1 0)]
  | JsonV.num n => [Sum.inl 2, Sum.inl (Encodable.encode n)]
  | JsonV.str s => Sum.inl 3 :: serStr s
  | JsonV.arr xs => Sum.inl 4 :: serArr xs
  | JsonV.obj xs => Sum.inl 5 :: serObj xs
def serArr : JsonArr → List Tok
  | JsonArr.nil => [Sum.inl 0]
  | JsonArr.cons v t => Sum.inl 1 :: (serV v ++ serArr t)
def serObj : JsonObj → List Tok
  | JsonObj.nil => [Sum.inl 0]
  | JsonObj.cons k v t => Sum.inl 1 :: (serStr k ++ (serV v ++ serObj t))
end

mutual
/-- Structural size, a fuel bound for the deserializer. -/
def szV : JsonV → Nat
  | JsonV.arr xs => szArr xs + 1
  | JsonV.obj xs => szObj xs + 1
  | _ => 1
def szArr : JsonArr → Nat
  | JsonArr.nil => 1
  | JsonArr.cons v t => szV v + szArr t + 1
def szObj : JsonObj → Nat
  | JsonObj.nil => 1
  | JsonObj.cons _ v t => szV v + szObj t + 1
end

mutual
/-- Fuelled deserializer for JSON values (model of `json.loads`). -/
def parV : Nat → List Tok → Option (JsonV × List Tok)
  | 0, _ => none
  | _ + 1, Sum.inl 0 :: r => some (JsonV.null, r)
  | _ + 1, Sum.inl 1 :: Sum.inl b :: r => some (JsonV.bool (b == 1), r)
  | _ + 1, Sum.inl 2 :: Sum.inl n :: r =>
    match (Encodable.decode n : Option Int) with
    | some i => some (JsonV.num i, r)
    | none => none
  | _ + 1, Sum.inl 3 :: r =>
    match parseStr r with
    | some (s, r1) => some (JsonV.str s, r1)
    | none => none
  | fuel + 1, Sum.inl 4 :: r =>
    match parArr fuel r with
    | some (xs, r1) => some (JsonV.arr xs, r1)
    | none => none
  | fuel + 1, Sum.inl 5 :: r =>
    match parObj fuel r with
    | some (xs, r1) => some (JsonV.obj xs, r1)
    | none => none
  | _ + 1, _ => none
def parArr : Nat → List Tok → Option (JsonArr × List Tok)
  | 0, _ => none
  | _ + 1, Sum.inl 0 :: r => some (JsonArr.nil, r)
  | fuel + 1, Sum.inl 1 :: r =>
    match parV fuel r with
    | some (v, r1) =>
      match parArr fuel r1 with
      | some (t, r2) => some (JsonArr.cons v t, r2)
      | none => none
    | none => none
  | _ + 1, _ => none
def parObj : Nat → List Tok → Option (JsonObj × List Tok)
  | 0, _ => none
  | _ + 1, Sum.inl 0 :: r => some (JsonObj.nil, r)
  | fuel + 1, Sum.inl 1 :: r =>
    match parseStr r with
    | some (k, r1) =>
      match parV fuel r1 with
      | some (v, r2) =>
        match parObj fuel r2 with
        | some (t, r3) => some (JsonObj.cons k v t, r3)
        | none => none
      | none => none
    | none => none
  | _ + 1, _ => none
end

/-- Model of `json.dumps` on a structured value. -/
def jsonDumps (v : JsonV) : List Tok := serV v

/-- Model of `json.loads`: `none` models a raised `JSONDecodeError`. -/
def jsonLoads (l : List Tok) : Option JsonV :=
  match parV l.length l with
  | some (v, []) => some v
  | _ => none

/-! ## Model of Fernet and `PHIEncryption` (src lines 56-78)

Fernet authenticated encryption is external; it is modelled by a token
carrying the key it was produced with, its plaintext payload, and an
integrity flag (`intact := false` models any tampering of the ciphertext,
which Fernet's MAC check detects). `decrypt` of a token that fails
authentication raises in Python; `PHIEncryption.decrypt_phi` catches every
exception and returns `None`, modelled by `Option`. -/

structure FernetToken where
  keyId : Nat
  payload : List Tok
  intact : Bool
deriving DecidableEq

/-- Model of `Fernet(key).encrypt`. -/
def fernetEncrypt (key : Nat) (plain : List Tok) : FernetToken :=
  FernetToken.mk key plain true

/-- Model of `Fernet(key).decrypt`: `none` models the raised `InvalidToken`
on a wrong key or a tampered token. -/
def fernetDecrypt (key : Nat) (t : FernetToken) : Option (List Tok) :=
  if t.keyId = key ∧ t.intact then some t.payload else none

/-- The `data` argument of `encrypt_phi`: a dict (serialized with
`json.dumps`) or a plain string (encoded as-is). -/
inductive PHIData where
  | dict : JsonObj → PHIData
  | str : String → PHIData

/-- `PHIEncryption.encrypt_phi`: dicts are `json.dumps`-serialized, then the
text is encrypted. -/
def encrypt_phi (key : Nat) (data : PHIData) : FernetToken :=
  match data with
  | PHIData.dict fs => fernetEncrypt key (jsonDumps (JsonV.obj fs))
  | PHIData.str s => fernetEncrypt key (strToText s)

/-- `PHIEncryption.decrypt_phi`: any decryption failure is caught and
surfaced as `none` (the Python `None` sentinel), never re-raised. -/
def decrypt_phi (key : Nat) (t : FernetToken) : Option (List Tok) :=
  fernetDecrypt key t

/-- The `Patient.demographics` property getter (src lines 143-148):
decrypt, then `json.loads` if the decrypted text is truthy, else `{}`.
A `json.loads` failure raises, modelled by `Except.error`. -/
def demographicsGetE (key : Nat) (blob : Option FernetToken) : Except String JsonV :=
  match blob with
  | none => Except.ok (JsonV.obj JsonObj.nil)
  | some t =>
    match decrypt_phi key t with
    | none => Except.ok (JsonV.obj JsonObj.nil)
    | some s =>
      if s = [] then Except.ok (JsonV.obj JsonObj.nil)
      else
        match jsonLoads s with
        | some v => Except.ok v
        | none => Except.error "json.loads: decode error"

/-! ## Model of `ClinicalNLP.generate_structured_note` (src lines 362-383) -/

/-- Python `s.split(sep)` for a one-character separator (structural, so
proofs can evaluate it): `""` splits to `[""]`, a trailing separator yields
a trailing empty piece. -/
def splitCharAux (sep : Char) : List Char → List Char → List String
  | [], acc => [String.mk acc.reverse]
  | c :: t, acc =>
    if c = sep then String.mk acc.reverse :: splitCharAux sep t []
    else splitCharAux sep t (c :: acc)

/-- Python `s.split(sep)` on a string. -/
def pySplit (sep : Char) (s : String) : List String :=
  splitCharAux sep s.data []

/-- Python `s.lower()`. -/
def pyLower (s : String) : String := String.mk (s.data.map Char.toLower)

/-- Python `s.strip()`. -/
def pyStrip (s : String) : List Char :=
  ((s.data.dropWhile Char.isWhitespace).reverse.dropWhile Char.isWhitespace).reverse

/-- Python `pat in s` substring test on char lists. -/
def listHasInfix (pat : List Char) : List Char → Bool
  | [] => pat.isEmpty
  | c :: t => pat.isPrefixOf (c :: t) || listHasInfix pat t

/-- Python `pat in s` substring test on strings. -/
def pyIn (pat s : String) : Bool := listHasInfix pat.toList s.toList

/-- `any(x in line.lower() for x in ['chief', 'complaint', 'chief complaint'])` -/
def histKey (line : String) : Bool :=
  pyIn "chief" (pyLower line) || pyIn "complaint" (pyLower line) ||
    pyIn "chief complaint" (pyLower line)

/-- `any(x in line.lower() for x in ['vital', 'exam', 'physical'])` -/
def examKey (line : String) : Bool :=
  pyIn "vital" (pyLower line) || pyIn "exam" (pyLower line) || pyIn "physical" (pyLower line)

/-- `any(x in line.lower() for x in ['impression', 'assessment', 'diagnosis'])` -/
def assessKey (line : String) : Bool :=
  pyIn "impression" (pyLower line) || pyIn "assessment" (pyLower line) ||
    pyIn "diagnosis" (pyLower line)

/-- `any(x in line.lower() for x in ['plan', 'treatment', 'intervention'])` -/
def planKey (line : String) : Bool :=
  pyIn "plan" (pyLower line) || pyIn "treatment" (pyLower line) ||
    pyIn "intervention" (pyLower line)

/-- The four named sections returned by `generate_structured_note`. -/
structure StructuredNote where
  history_of_present_illness : String
  physical_exam : String
  assessment : String
  plan : String
deriving DecidableEq

/-- One iteration of the `for line in lines` loop: the if/elif chain
assigns the line to the first section whose keywords match, overwriting
any earlier assignment to that section. -/
def noteStep (acc : StructuredNote) (line : String) : StructuredNote :=
  if histKey line then
    StructuredNote.mk line acc.physical_exam acc.assessment acc.plan
  else if examKey line then
    StructuredNote.mk acc.history_of_present_illness line acc.assessment acc.plan
  else if assessKey line then
    StructuredNote.mk acc.history_of_present_illness acc.physical_exam line acc.plan
  else if planKey line then
    StructuredNote.mk acc.history_of_present_illness acc.physical_exam acc.assessment line
  else acc

/-- `ClinicalNLP.generate_structured_note`. -/
def generate_structured_note (raw_note : String) : StructuredNote :=
  (pySplit '\n' raw_note).foldl noteStep (StructuredNote.mk "" "" "" "")

/-- The spec's reading of `structure_note`, stated from the spec's words:
identical keyword scan, but the FIRST matching line wins per section
(a section once filled is never overwritten). Used to compare against the
source behaviour. -/
def noteStepFirstWins (acc : StructuredNote) (line : String) : StructuredNote :=
  if histKey line then
    (if acc.history_of_present_illness = "" then
      StructuredNote.mk line acc.physical_exam acc.assessment acc.plan else acc)
  else if examKey line then
    (if acc.physical_exam = "" then
      StructuredNote.mk acc.history_of_present_illness line acc.assessment acc.plan else acc)
  else if assessKey line then
    (if acc.assessment = "" then
      StructuredNote.mk acc.history_of_present_illness acc.physical_exam line acc.plan else acc)
  else if planKey line then
    (if acc.plan = "" then
      StructuredNote.mk acc.history_of_present_illness acc.physical_exam acc.assessment line
     else acc)
  else acc

/-- `structure_note` as the spec words it (first matching line wins). -/
def generate_structured_note_firstWins (raw_note : String) : StructuredNote :=
  (pySplit '\n' raw_note).foldl noteStepFirstWins (StructuredNote.mk "" "" "" "")

/-! ## Model of `TriageModel.predict_triage_level` (src lines 262-317)

`patient_vitals` is a Python dict, modelled as an association list of
`PyVal` values (a present key may hold `None`, a number, or a string).
The sklearn `RandomForestClassifier` is external and modelled by a pair of
functions; its contract (probabilities in [0,1]) enters the theorems as a
hypothesis. Any exception inside the `try` block (bad `float()` conversion,
missing `bp[1]`, non-numeric feature reaching sklearn, `max` of an empty
row) is caught and becomes the error-flagged neutral result. -/

/-- A Python value stored in the vitals dict. -/
inductive PyVal where
  | vnone : PyVal
  | vnum : Rat → PyVal
  | vstr : String → PyVal
  | vother : PyVal
deriving DecidableEq

/-- `d.get(k)` on a Python dict (keys unique). -/
def dictGet (d : List (String × PyVal)) (k : String) : Option PyVal :=
  (d.find? (fun p => p.1 = k)).map (fun p => p.2)

/-- Digits to a natural number. -/
def digitsToNat (cs : List Char) : Nat :=
  cs.foldl (fun a c => a * 10 + (c.toNat - 48)) 0

/-- Model of Python `float(s)` on a string: optional sign, decimal digits
with at most one point, surrounding whitespace stripped; `none` models the
raised `ValueError`. -/
def pyFloat? (s : String) : Option Rat :=
  let cs0 := pyStrip s
  let sign : Rat := if cs0.take 1 = ['-'] then -1 else 1
  let cs := if cs0.take 1 = ['-'] || cs0.take 1 = ['+'] then cs0.drop 1 else cs0
  let ip := cs.takeWhile Char.isDigit
  let rest := cs.dropWhile Char.isDigit
  match rest with
  | [] => if ip = [] then none else some (sign * digitsToNat ip)
  | '.' :: fp =>
    if fp.all Char.isDigit ∧ (ip ≠ [] ∨ fp ≠ []) then
      some (sign * ((digitsToNat ip : Rat) + digitsToNat fp / 10 ^ fp.length))
    else none
  | _ => none

/-- Model of Python `float(v)` on a dict value: numbers pass through,
strings are parsed, `None` or anything else raises (`none`). -/
def floatOfVal : PyVal → Option Rat
  | PyVal.vnum q => some q
  | PyVal.vstr s => pyFloat? s
  | _ => none

/-- `blood_pressure.split('/')` followed by `float(bp[0])`, `float(bp[1])`:
`none` models the raised `ValueError`/`IndexError` for a string not
parseable as two numbers. -/
def parseBP (bp : String) : Option (Rat × Rat) :=
  match pySplit '/' bp with
  | p0 :: p1 :: _ =>
    match pyFloat? p0, pyFloat? p1 with
    | some a, some b => some (a, b)
    | _, _ => none
  | _ => none

/-- Model of the external sklearn `RandomForestClassifier` after `fit`. -/
structure RFModel where
  rfPredict : List Rat → Nat
  rfPredictProba : List Rat → List Rat

/-- The dict returned by `predict_triage_level`. -/
structure TriageResult where
  level : String
  confidence : Rat
  warning : Option String
  errMsg : Option String
  probs : Option (List Rat)
deriving DecidableEq

/-- The feature-extraction loop over
`['age', 'heart_rate', 'bp_systolic', 'bp_diastolic', 'oxygen_sat',
'respiratory_rate', 'temperature']`. `Except.error` models any exception
raised while building the vector or scoring it (the non-numeric `age`
case raises when the heterogeneous vector reaches sklearn; both land in
the same `except` branch of the source). -/
def extractFeatures (patient_vitals : List (String × PyVal)) : Except String (List Rat) :=
  match (dictGet patient_vitals "age").getD (PyVal.vnum 50) with
  | PyVal.vnum age =>
    match floatOfVal ((dictGet patient_vitals "heart_rate").getD (PyVal.vnum 0)) with
    | none => Except.error "float: heart_rate"
    | some hr =>
      match (dictGet patient_vitals "blood_pressure").getD (PyVal.vstr "120/80") with
      | PyVal.vstr bp =>
        match parseBP bp with
        | none => Except.error "malformed blood pressure"
        | some sysdia =>
          match floatOfVal ((dictGet patient_vitals "oxygen_sat").getD (PyVal.vnum 0)),
              floatOfVal ((dictGet patient_vitals "respiratory_rate").getD (PyVal.vnum 0)),
              floatOfVal ((dictGet patient_vitals "temperature").getD (PyVal.vnum 0)) with
          | some ox, some rr, some tp =>
            Except.ok [age, hr, sysdia.1, sysdia.2, ox, rr, tp]
          | _, _, _ => Except.error "float: vital"
      | _ => Except.error "split on non-string blood_pressure"
  | _ => Except.error "non-numeric age"

/-- `self.esi_mapping = {0: 'ESI-1', ..., 4: 'ESI-5'}` as `.get`. -/
def esiMapping (n : Nat) : Option String :=
  match n with
  | 0 => some "ESI-1"
  | 1 => some "ESI-2"
  | 2 => some "ESI-3"
  | 3 => some "ESI-4"
  | 4 => some "ESI-5"
  | _ => none

/-- Python `max` on a list; `none` models the `ValueError` on empty input. -/
def pyMax : List Rat → Option Rat
  | [] => none
  | h :: t => some (t.foldl max h)

/-- `TriageModel.predict_triage_level`. `model = none` is the untrained
state (`self._trained = False`). -/
def predict_triage_level (model : Option RFModel)
    (patient_vitals : List (String × PyVal)) : TriageResult :=
  match model with
  | none => TriageResult.mk "ESI-3" 0 (some "Model not trained") none none
  | some rf =>
    match extractFeatures patient_vitals with
    | Except.error e => TriageResult.mk "ESI-3" 0 none (some e) none
    | Except.ok features =>
      let prediction := rf.rfPredict features
      let probabilities := rf.rfPredictProba features
      match pyMax probabilities with
      | none => TriageResult.mk "ESI-3" 0 none (some "max of empty sequence") none
      | some confidence =>
        TriageResult.mk ((esiMapping prediction).getD "ESI-3") confidence none none
          (some probabilities)

/-- The fixed five-tier set. -/
def tierList : List String := ["ESI-1", "ESI-2", "ESI-3", "ESI-4", "ESI-5"]

/-! ## Database entities (src lines 82-257) and request/response model

Rows live in in-memory lists; `db.session.add` + `commit` appends, an ORM
attribute assignment + `commit` replaces the row. Timestamps are naturals
(`datetime.utcnow()` of the request is the parameter `now`). Flask handler
results are `(body, statusCode)`; a raised exception is `Except.error`. -/

structure User where
  id : Nat
  username : String
  email : String
  password_hash : String
  role : String
  hospital_id : Option Nat
  ambulance_id : Option String
  is_active : Bool
deriving DecidableEq

structure Hospital where
  id : Nat
  name : String
  latitude : Rat
  longitude : Rat
  bed_capacity : Nat
  current_occupancy : Nat
  is_active : Bool
deriving DecidableEq

structure Patient where
  id : Nat
  patient_id : String
  demographics : Option FernetToken
  medical_history : Option FernetToken
  heart_rate : Option Rat
  blood_pressure : Option String
  oxygen_saturation : Option Rat
  temperature : Option Rat
  respiratory_rate : Option Rat
  chief_complaint : Option String
  triage_level : Option String
  risk_score : Option Rat
  ambulance_id : Option String
  origin_latitude : Option Rat
  origin_longitude : Option Rat
  destination_hospital_id : Option Nat
  estimated_arrival : Option Nat
  created_at : Nat
  updated_at : Nat
deriving DecidableEq

structure Alert where
  id : Nat
  alert_id : String
  patient_id : Option Nat
  hospital_id : Option Nat
  alert_type : String
  severity : String
  message : String
  department : String
  is_acknowledged : Bool
  acknowledged_by : Option Nat
  acknowledged_at : Option Nat
  created_at : Nat
deriving DecidableEq

structure AuditLog where
  user_id : Option Nat
  action : String
  resource_type : String
  resource_id : String
  ip_address : String
  status : String
  details : List (String × String)
  timestamp : Nat
deriving DecidableEq

structure DBState where
  users : List User
  hospitals : List Hospital
  patients : List Patient
  alerts : List Alert
  audit_logs : List AuditLog
deriving DecidableEq

/-- One `socketio.emit(event, payload, room=...)` call. -/
structure EmittedEvent where
  event : String
  room : String
deriving DecidableEq

/-- Response bodies of the handlers relevant to the claims. -/
inductive RespBody where
  | errMsg : String → RespBody
  | loginSuccess : Nat → String → String → RespBody
  | createSuccess : String → Nat → String → Rat → Option String → Option Nat → RespBody
  | vitalsUpdated : Nat → RespBody
  | auditLogsPage : List AuditLog → RespBody
deriving DecidableEq

/-- A Flask response: body and HTTP status. -/
abbrev Response := RespBody × Nat

/-- A handler over the shared state: final state, emitted events, and
either a returned response or a raised exception (`Except.error`). -/
abbrev Handler := DBState → DBState × List EmittedEvent × Except String Response

/-! ## Decorators (src lines 392-451) -/

/-- `get_jwt_identity()` then `User.query.get(user_id)`. -/
def resolveUser (uid : Option Nat) (st : DBState) : Option User :=
  uid.bind (fun i => st.users.find? (fun u => u.id = i))

/-- `require_role(*allowed_roles)`: deny with a 403 response (a return, not
a raise) when the actor cannot be resolved or its role is not allowed;
otherwise run the wrapped function. Runs outside `log_audit` on every
decorated route. -/
def require_role (allowed_roles : List String) (uid : Option Nat) (fn : Handler) : Handler :=
  fun st =>
    match resolveUser uid st with
    | none => (st, [], Except.ok (RespBody.errMsg "Insufficient permissions", 403))
    | some user =>
      if user.role ∈ allowed_roles then fn st
      else (st, [], Except.ok (RespBody.errMsg "Insufficient permissions", 403))

/-- `log_audit(action, resource_type, resource_id, details)`: run the
wrapped function; append one `AuditLog` row with status `success` on a
normal return and `error` (with the failure detail) on a raise, then pass
the result or re-raise the original exception. -/
def log_audit (uid : Option Nat) (action resource_type resource_id : String)
    (details : List (String × String)) (ip : String) (now : Nat) (fn : Handler) : Handler :=
  fun st =>
    let inner := fn st
    match inner.2.2 with
    | Except.ok result =>
      (DBState.mk inner.1.users inner.1.hospitals inner.1.patients inner.1.alerts
        (inner.1.audit_logs ++
          [AuditLog.mk uid action resource_type resource_id ip "success" details now]),
       inner.2.1, Except.ok result)
    | Except.error e =>
      (DBState.mk inner.1.users inner.1.hospitals inner.1.patients inner.1.alerts
        (inner.1.audit_logs ++
          [AuditLog.mk uid action resource_type resource_id ip "error" [("error", e)] now]),
       inner.2.1, Except.error e)

/-! ## `login` (src lines 457-475) -/

/-- `POST /api/auth/login`: look up the username; succeed iff a user exists
and the supplied password is the literal `'temp'`. -/
def login_body (username password : String) (st : DBState) : Response :=
  match st.users.find? (fun u => u.username = username) with
  | none => (RespBody.errMsg "Invalid credentials", 401)
  | some user =>
    if password = "temp" then
      (RespBody.loginSuccess user.id user.username user.role, 200)
    else (RespBody.errMsg "Invalid credentials", 401)

/-! ## `create_patient` (src lines 479-563) -/

/-- The parsed intake request body. -/
structure CreateReq where
  demographics : Option JsonV
  medical_history : Option JsonV
  heart_rate : Option Rat
  blood_pressure : Option String
  oxygen_saturation : Option Rat
  temperature : Option Rat
  respiratory_rate : Option Rat
  chief_complaint : Option String
  ambulance_id : Option String
  origin_latitude : Option Rat
  origin_longitude : Option Rat
  department : Option String

/-- `encrypt_phi` applied to an arbitrary JSON request value: dicts are
serialized, strings are encoded directly, anything else raises
(`data.encode()` on a non-string). -/
def encryptPy (key : Nat) (v : JsonV) : Except String FernetToken :=
  match v with
  | JsonV.obj fs => Except.ok (encrypt_phi key (PHIData.dict fs))
  | JsonV.str s => Except.ok (encrypt_phi key (PHIData.str s))
  | _ => Except.error "AttributeError: object has no attribute encode"

/-- Association lookup inside a JSON object (Python `dict.get`). -/
def jsonObjLookup : JsonObj → String → Option JsonV
  | JsonObj.nil, _ => none
  | JsonObj.cons k v t, key => if k = key then some v else jsonObjLookup t key

/-- A JSON value as it enters the vitals dict (`demographics.get('age', 50)`
is appended to the feature list unconverted). -/
def pyOfJson : JsonV → PyVal
  | JsonV.num n => PyVal.vnum n
  | JsonV.str s => PyVal.vstr s
  | JsonV.null => PyVal.vnone
  | _ => PyVal.vother

/-- Optional number as a dict value (an absent request field is stored as
`None`, the key itself is present). -/
def pyOfNum : Option Rat → PyVal
  | none => PyVal.vnone
  | some q => PyVal.vnum q

/-- Optional string as a dict value. -/
def pyOfStr : Option String → PyVal
  | none => PyVal.vnone
  | some s => PyVal.vstr s

/-- f-string rendering of a JSON value (message text only). -/
def pyRender : JsonV → String
  | JsonV.str s => s
  | JsonV.num n => toString n
  | JsonV.null => "None"
  | JsonV.bool true => "True"
  | JsonV.bool false => "False"
  | _ => "<object>"

/-- f-string rendering of an optional string. -/
def renderOptStr : Option String → String
  | none => "None"
  | some s => s

/-- `POST /api/patients` handler body (inside its decorators). The whole
body sits in a `try` whose `except` returns `({'error': ...}, 400)`, so
every raise inside becomes a 400 response. Mirrors the source order:
construct the `Patient` (encrypting demographics and history), classify,
pick the first active hospital, commit the patient, then build the alert —
which dereferences `destination_hospital.id` unconditionally — commit it,
and emit the websocket alert. -/
def create_patient_body (now key : Nat) (model : Option RFModel) (req : CreateReq) :
    Handler :=
  fun st =>
    let demog := req.demographics.getD (JsonV.obj JsonObj.nil)
    let mhist := req.medical_history.getD (JsonV.obj JsonObj.nil)
    match encryptPy key demog, encryptPy key mhist with
    | Except.error e, _ => (st, [], Except.ok (RespBody.errMsg e, 400))
    | _, Except.error e => (st, [], Except.ok (RespBody.errMsg e, 400))
    | Except.ok dtok, Except.ok mtok =>
      match demog with
      | JsonV.obj dfields =>
        let pid := "PAT-" ++ toString now
        let ageVal := match jsonObjLookup dfields "age" with
          | some v => pyOfJson v
          | none => PyVal.vnum 50
        let pv : List (String × PyVal) :=
          [("age", ageVal), ("heart_rate", pyOfNum req.heart_rate),
           ("blood_pressure", pyOfStr req.blood_pressure),
           ("oxygen_saturation", pyOfNum req.oxygen_saturation),
           ("temperature", pyOfNum req.temperature),
           ("respiratory_rate", pyOfNum req.respiratory_rate)]
        let tri := predict_triage_level model pv
        let dest := st.hospitals.find? (fun h => h.is_active)
        let patient : Patient :=
          Patient.mk (st.patients.length + 1) pid (some dtok) (some mtok)
            req.heart_rate req.blood_pressure req.oxygen_saturation req.temperature
            req.respiratory_rate req.chief_complaint (some tri.level)
            (some (tri.confidence * 100)) req.ambulance_id req.origin_latitude
            req.origin_longitude (dest.map (fun h => h.id))
            (dest.map (fun _ => now + 15)) now now
        let st1 := DBState.mk st.users st.hospitals (st.patients ++ [patient])
          st.alerts st.audit_logs
        match dest with
        | none =>
          (st1, [], Except.ok
            (RespBody.errMsg "AttributeError: NoneType object has no attribute id", 400))
        | some h =>
          match demographicsGetE key patient.demographics with
          | Except.error e => (st1, [], Except.ok (RespBody.errMsg e, 400))
          | Except.ok dv =>
            match dv with
            | JsonV.obj fs =>
              let nameVal := (jsonObjLookup fs "name").getD (JsonV.str "Unknown")
              let alert : Alert :=
                Alert.mk (st1.alerts.length + 1) ("ALR-" ++ toString now)
                  (some patient.id) (some h.id) "patient_arrival"
                  (if pyIn "ESI-1" tri.level || pyIn "ESI-2" tri.level then "critical"
                   else "medium")
                  ("Incoming patient: " ++ pyRender nameVal ++ " - " ++
                    renderOptStr req.chief_complaint)
                  (req.department.getD "emergency") false none none now
              let st2 := DBState.mk st1.users st1.hospitals st1.patients
                (st1.alerts ++ [alert]) st1.audit_logs
              match patient.estimated_arrival with
              | none =>
                (st2, [], Except.ok
                  (RespBody.errMsg "AttributeError: NoneType has no isoformat", 400))
              | some eta =>
                (st2, [EmittedEvent.mk "new_patient_alert" ("hospital_" ++ toString h.id)],
                 Except.ok (RespBody.createSuccess pid patient.id tri.level tri.confidence
                   (some h.name) (some eta), 201))
            | _ =>
              (st1, [], Except.ok
                (RespBody.errMsg "AttributeError: object has no attribute get", 400))
      | JsonV.str _ =>
        (st, [], Except.ok
          (RespBody.errMsg "AttributeError: str object has no attribute get", 400))
      | _ => (st, [], Except.ok (RespBody.errMsg "unreachable", 400))

/-! ## `update_patient_vitals` (src lines 593-625) -/

/-- The parsed vitals-update request: outer `Option` is key presence,
inner `Option` is the stored value (a present key may be `null`). -/
structure VitalsReq where
  heart_rate : Option (Option Rat)
  blood_pressure : Option (Option String)
  oxygen_saturation : Option (Option Rat)
  temperature : Option (Option Rat)
  respiratory_rate : Option (Option Rat)

/-- `PUT /api/patients/<patient_id>/vitals` handler body: 404 when the
case id does not resolve; otherwise merge exactly the provided fields
(`data.get(k, current)`), refresh `updated_at`, commit, and emit one
`patient_vitals_update` event to the case topic `patient_<id>`. -/
def update_patient_vitals_body (now : Nat) (patient_id : String) (req : VitalsReq) :
    Handler :=
  fun st =>
    match st.patients.find? (fun p => p.patient_id = patient_id) with
    | none => (st, [], Except.ok (RespBody.errMsg "Patient not found", 404))
    | some p =>
      let p1 : Patient :=
        Patient.mk p.id p.patient_id p.demographics p.medical_history
          (req.heart_rate.getD p.heart_rate)
          (req.blood_pressure.getD p.blood_pressure)
          (req.oxygen_saturation.getD p.oxygen_saturation)
          (req.temperature.getD p.temperature)
          (req.respiratory_rate.getD p.respiratory_rate)
          p.chief_complaint p.triage_level p.risk_score p.ambulance_id
          p.origin_latitude p.origin_longitude p.destination_hospital_id
          p.estimated_arrival p.created_at now
      let st1 := DBState.mk st.users st.hospitals
        (st.patients.map (fun q => if q.id = p.id then p1 else q)) st.alerts st.audit_logs
      (st1, [EmittedEvent.mk "patient_vitals_update" ("patient_" ++ patient_id)],
       Except.ok (RespBody.vitalsUpdated now, 200))

/-! ## `get_audit_logs` (src lines 699-715) -/

/-- `GET /api/audit-logs` body: newest-first page of at most 1000 entries. -/
def get_audit_logs_body : Handler :=
  fun st =>
    (st, [], Except.ok (RespBody.auditLogsPage (st.audit_logs.reverse.take 1000), 200))

/-- The full audit-log route: `@require_role('admin')` with no audit
decorator of its own. -/
def get_audit_logs_route (uid : Option Nat) : Handler :=
  require_role ["admin"] uid get_audit_logs_body

/-! ## Derived predicates and concrete data used by the theorems -/

/-- A line lands in `physical_exam`: exam keywords and not the earlier
`elif` branch. -/
def peKey (l : String) : Bool := !histKey l && examKey l

/-- A line lands in `assessment`. -/
def asKey (l : String) : Bool := !histKey l && !examKey l && assessKey l

/-- A line lands in `plan`. -/
def plKey (l : String) : Bool := !histKey l && !examKey l && !assessKey l && planKey l

/-- A concrete trained model: always predicts class 1 with a valid
probability row. -/
def demoRF : RFModel :=
  RFModel.mk (fun _ => 1) (fun _ => [1/10, 3/5, 1/10, 1/10, 1/10])

/-- An empty database. -/
def emptySt : DBState := DBState.mk [] [] [] [] []

/-- A field-responder account. -/
def medicUser : User :=
  User.mk 1 "medic1" "medic1@example.org" "stored-hash" "paramedic" none none true

/-- A database holding only the field-responder account. -/
def medicSt : DBState := DBState.mk [medicUser] [] [] [] []

/-- An intake request with every field absent. -/
def emptyCreateReq : CreateReq :=
  CreateReq.mk none none none none none none none none none none none none

/-- A vitals-update request providing only a heart rate. -/
def hrOnlyReq : VitalsReq := VitalsReq.mk (some (some 95)) none none none none

/-- An existing case row. -/
def basePatient : Patient :=
  Patient.mk 1 "PAT-100" none none (some 80) (some "120/80") (some 98) (some 37)
    (some 16) (some "chest pain") (some "ESI-3") (some 50) (some "AMB-7") none none
    none none 100 100

/-- A database holding only `basePatient`. -/
def baseSt : DBState := DBState.mk [] [] [basePatient] [] []

/-- Rewrite every stored credential hash and active flag (used to state
that `login` never consults them). -/
def scrubUsers (hashes : Nat → String) (actives : Nat → Bool) (st : DBState) : DBState :=
  DBState.mk
    (st.users.map (fun u => User.mk u.id u.username u.email (hashes u.id) u.role
      u.hospital_id u.ambulance_id (actives u.id)))
    st.hospitals st.patients st.alerts st.audit_logs

/-! ## Serialization round trip (used by the PHI codec claim) -/

theorem takeChars_append (cs : List Char) (r : List Tok) :
    takeChars cs.length (cs.map Sum.inr ++ r) = some (cs, r) := by
  induction cs with
  | nil => rfl
  | cons c t ih => simp [takeChars, ih]

theorem parseStr_serStr (s : String) (r : List Tok) :
    parseStr (serStr s ++ r) = some (s, r) := by
  have h : takeChars s.length (s.data.map Sum.inr ++ r) = some (s.data, r) :=
    takeChars_append s.data r
  simp [parseStr, serStr, strToText, h]

mutual
theorem parV_serV : ∀ (v : JsonV) (fuel : Nat) (r : List Tok), szV v ≤ fuel →
    parV fuel (serV v ++ r) = some (v, r)
  | v, 0, _, h => by cases v <;> simp [szV] at h
  | JsonV.null, fuel + 1, r, _ => by simp [serV, parV]
  | JsonV.bool b, fuel + 1, r, _ => by cases b <;> simp [serV, parV]
  | JsonV.num n, fuel + 1, r, _ => by
    show parV (fuel + 1) (Sum.inl 2 :: Sum.inl (Encodable.encode n) :: r) = _
    rw [parV, Encodable.encodek]
  | JsonV.str s, fuel + 1, r, _ => by simp [serV, parV, parseStr_serStr]
  | JsonV.arr xs, fuel + 1, r, h => by
    have hx : szArr xs ≤ fuel := by simp [szV] at h; omega
    simp [serV, parV, parArr_serArr xs fuel r hx]
  | JsonV.obj xs, fuel + 1, r, h => by
    have hx : szObj xs ≤ fuel := by simp [szV] at h; omega
    simp [serV, parV, parObj_serObj xs fuel r hx]
theorem parArr_serArr : ∀ (xs : JsonArr) (fuel : Nat) (r : List Tok), szArr xs ≤ fuel →
    parArr fuel (serArr xs ++ r) = some (xs, r)
  | xs, 0, _, h => by cases xs <;> simp [szArr] at h
  | JsonArr.nil, fuel + 1, r, _ => by simp [serArr, parArr]
  | JsonArr.cons v t, fuel + 1, r, h => by
    have hv : szV v ≤ fuel := by simp [szArr] at h; omega
    have ht : szArr t ≤ fuel := by simp [szArr] at h; omega
    have h1 : parV fuel (serV v ++ (serArr t ++ r)) = some (v, serArr t ++ r) :=
      parV_serV v fuel (serArr t ++ r) hv
    simp [serArr, parArr, h1, parArr_serArr t fuel r ht]
theorem parObj_serObj : ∀ (xs : JsonObj) (fuel : Nat) (r : List Tok), szObj xs ≤ fuel →
    parObj fuel (serObj xs ++ r) = some (xs, r)
  | xs, 0, _, h => by cases xs <;> simp [szObj] at h
  | JsonObj.nil, fuel + 1, r, _ => by simp [serObj, parObj]
  | JsonObj.cons k v t, fuel + 1, r, h => by
    have hv : szV v ≤ fuel := by simp [szObj] at h; omega
    have ht : szObj t ≤ fuel := by simp [szObj] at h; omega
    have h0 : parseStr (serStr k ++ (serV v ++ (serObj t ++ r))) =
        some (k, serV v ++ (serObj t ++ r)) := parseStr_serStr k _
    have h1 : parV fuel (serV v ++ (serObj t ++ r)) = some (v, serObj t ++ r) :=
      parV_serV v fuel (serObj t ++ r) hv
    simp [serObj, parObj, h0, h1, parObj_serObj t fuel r ht]
end

mutual
theorem szV_le_len : ∀ v : JsonV, szV v ≤ (serV v).length
  | JsonV.null => by simp [szV, serV]
  | JsonV.bool b => by simp [szV, serV]
  | JsonV.num n => by simp [szV, serV]
  | JsonV.str s => by simp [szV, serV]
  | JsonV.arr xs => by
    have := szArr_le_len xs
    simp [szV, serV]; omega
  | JsonV.obj xs => by
    have := szObj_le_len xs
    simp [szV, serV]; omega
theorem szArr_le_len : ∀ xs : JsonArr, szArr xs ≤ (serArr xs).length
  | JsonArr.nil => by simp [szArr, serArr]
  | JsonArr.cons v t => by
    have h1 := szV_le_len v
    have h2 := szArr_le_len t
    simp [szArr, serArr]; omega
theorem szObj_le_len : ∀ xs : JsonObj, szObj xs ≤ (serObj xs).length
  | JsonObj.nil => by simp [szObj, serObj]
  | JsonObj.cons k v t => by
    have h1 := szV_le_len v
    have h2 := szObj_le_len t
    simp [szObj, serObj]; omega
end

theorem jsonLoads_jsonDumps (v : JsonV) : jsonLoads (jsonDumps v) = some v := by
  have h : parV (serV v).length (serV v ++ []) = some (v, []) :=
    parV_serV v (serV v).length [] (szV_le_len v)
  rw [List.append_nil] at h
  simp [jsonLoads, jsonDumps, h]


/-! ## Claim theorems -/

/-- C3: `protect` then `reveal` with the same key returns the original
structured value (through the decrypt-on-read accessor, which applies
`json.loads` to the decrypted text); for a raw string the decrypted text is
exactly the encoded input; a wrong-key or tampered token makes `reveal`
return the `None` decode-failure sentinel (never a raise, since every
decryption failure is caught), and the read accessor then degrades to the
empty result. -/
theorem phi_protect_reveal_roundtrip (key key2 : Nat) (fs : JsonObj) (s : String)
    (hk : key2 ≠ key) :
    demographicsGetE key (some (encrypt_phi key (PHIData.dict fs))) =
      Except.ok (JsonV.obj fs) ∧
    decrypt_phi key (encrypt_phi key (PHIData.str s)) = some (strToText s) ∧
    decrypt_phi key2 (encrypt_phi key (PHIData.dict fs)) = none ∧
    (∀ t : FernetToken, t.intact = false → decrypt_phi key t = none) ∧
    demographicsGetE key2 (some (encrypt_phi key (PHIData.dict fs))) =
      Except.ok (JsonV.obj JsonObj.nil) := by
  have hne : jsonDumps (JsonV.obj fs) ≠ [] := by simp [jsonDumps, serV]
  have hwrong : decrypt_phi key2 (encrypt_phi key (PHIData.dict fs)) = none := by
    simp [decrypt_phi, fernetDecrypt, encrypt_phi, fernetEncrypt, Ne.symm hk]
  refine ⟨?_, ?_, hwrong, ?_, ?_⟩
  · simp [demographicsGetE, decrypt_phi, fernetDecrypt, encrypt_phi, fernetEncrypt,
      hne, jsonLoads_jsonDumps]
  · simp [decrypt_phi, fernetDecrypt, encrypt_phi, fernetEncrypt]
  · intro t ht
    simp [decrypt_phi, fernetDecrypt, ht]
  · simp [demographicsGetE, hwrong]

/-- C3 witness: the round trip and the wrong-key sentinel at key 0 versus
key 1 on a one-field dict. -/
theorem phi_protect_reveal_roundtrip_witness :
    demographicsGetE 0 (some (encrypt_phi 0
        (PHIData.dict (JsonObj.cons "name" (JsonV.str "Ada") JsonObj.nil)))) =
      Except.ok (JsonV.obj (JsonObj.cons "name" (JsonV.str "Ada") JsonObj.nil)) ∧
    decrypt_phi 1 (encrypt_phi 0
        (PHIData.dict (JsonObj.cons "name" (JsonV.str "Ada") JsonObj.nil))) = none := by
  have h := phi_protect_reveal_roundtrip 0 1
    (JsonObj.cons "name" (JsonV.str "Ada") JsonObj.nil) "x" (by decide)
  exact ⟨h.1, h.2.2.1⟩

/-- `noteStep` on the history section. -/
theorem noteStep_hist (acc : StructuredNote) (l : String) :
    (noteStep acc l).history_of_present_illness =
      if histKey l then l else acc.history_of_present_illness := by
  unfold noteStep; split_ifs <;> rfl

/-- `noteStep` on the physical-exam section. -/
theorem noteStep_pe (acc : StructuredNote) (l : String) :
    (noteStep acc l).physical_exam =
      if histKey l then acc.physical_exam
      else if examKey l then l else acc.physical_exam := by
  unfold noteStep; split_ifs <;> rfl

/-- `noteStep` on the assessment section. -/
theorem noteStep_as (acc : StructuredNote) (l : String) :
    (noteStep acc l).assessment =
      if histKey l then acc.assessment
      else if examKey l then acc.assessment
      else if assessKey l then l else acc.assessment := by
  unfold noteStep; split_ifs <;> rfl

/-- `noteStep` on the plan section. -/
theorem noteStep_pl (acc : StructuredNote) (l : String) :
    (noteStep acc l).plan =
      if histKey l then acc.plan
      else if examKey l then acc.plan
      else if assessKey l then acc.plan
      else if planKey l then l else acc.plan := by
  unfold noteStep; split_ifs <;> rfl

/-- The loop keeps the last history-matching line. -/
theorem foldl_noteStep_hist (lines : List String) (acc : StructuredNote) :
    (lines.foldl noteStep acc).history_of_present_illness =
      (lines.filter histKey).getLastD acc.history_of_present_illness := by
  induction lines generalizing acc with
  | nil => rfl
  | cons l ls ih =>
    rw [List.foldl_cons, ih, noteStep_hist]
    by_cases h : histKey l
    · rw [if_pos h, List.filter_cons_of_pos h, List.getLastD_cons]
    · rw [if_neg h, List.filter_cons_of_neg h]

/-- The loop keeps the last exam-matching (and not history-matching) line. -/
theorem foldl_noteStep_pe (lines : List String) (acc : StructuredNote) :
    (lines.foldl noteStep acc).physical_exam =
      (lines.filter peKey).getLastD acc.physical_exam := by
  induction lines generalizing acc with
  | nil => rfl
  | cons l ls ih =>
    rw [List.foldl_cons, ih, noteStep_pe]
    by_cases h1 : histKey l
    · have hp : ¬ peKey l = true := by simp [peKey, h1]
      rw [if_pos h1, List.filter_cons_of_neg hp]
    · by_cases h2 : examKey l
      · have hp : peKey l = true := by simp [peKey, h1, h2]
        rw [if_neg h1, if_pos h2, List.filter_cons_of_pos hp, List.getLastD_cons]
      · have hp : ¬ peKey l = true := by simp [peKey, h1, h2]
        rw [if_neg h1, if_neg h2, List.filter_cons_of_neg hp]

/-- The loop keeps the last assessment-matching line. -/
theorem foldl_noteStep_as (lines : List String) (acc : StructuredNote) :
    (lines.foldl noteStep acc).assessment =
      (lines.filter asKey).getLastD acc.assessment := by
  induction lines generalizing acc with
  | nil => rfl
  | cons l ls ih =>
    rw [List.foldl_cons, ih, noteStep_as]
    by_cases h1 : histKey l
    · have hp : ¬ asKey l = true := by simp [asKey, h1]
      rw [if_pos h1, List.filter_cons_of_neg hp]
    · by_cases h2 : examKey l
      · have hp : ¬ asKey l = true := by simp [asKey, h1, h2]
        rw [if_neg h1, if_pos h2, List.filter_cons_of_neg hp]
      · by_cases h3 : assessKey l
        · have hp : asKey l = true := by simp [asKey, h1, h2, h3]
          rw [if_neg h1, if_neg h2, if_pos h3, List.filter_cons_of_pos hp,
            List.getLastD_cons]
        · have hp : ¬ asKey l = true := by simp [asKey, h1, h2, h3]
          rw [if_neg h1, if_neg h2, if_neg h3, List.filter_cons_of_neg hp]

/-- The loop keeps the last plan-matching line. -/
theorem foldl_noteStep_pl (lines : List String) (acc : StructuredNote) :
    (lines.foldl noteStep acc).plan = (lines.filter plKey).getLastD acc.plan := by
  induction lines generalizing acc with
  | nil => rfl
  | cons l ls ih =>
    rw [List.foldl_cons, ih, noteStep_pl]
    by_cases h1 : histKey l
    · have hp : ¬ plKey l = true := by simp [plKey, h1]
      rw [if_pos h1, List.filter_cons_of_neg hp]
    · by_cases h2 : examKey l
      · have hp : ¬ plKey l = true := by simp [plKey, h1, h2]
        rw [if_neg h1, if_pos h2, List.filter_cons_of_neg hp]
      · by_cases h3 : assessKey l
        · have hp : ¬ plKey l = true := by simp [plKey, h1, h2, h3]
          rw [if_neg h1, if_neg h2, if_pos h3, List.filter_cons_of_neg hp]
        · by_cases h4 : planKey l
          · have hp : plKey l = true := by simp [plKey, h1, h2, h3, h4]
            rw [if_neg h1, if_neg h2, if_neg h3, if_pos h4, List.filter_cons_of_pos hp,
              List.getLastD_cons]
          · have hp : ¬ plKey l = true := by simp [plKey, h1, h2, h3, h4]
            rw [if_neg h1, if_neg h2, if_neg h3, if_neg h4, List.filter_cons_of_neg hp]

/-- C6 counterexample: with two lines both carrying a history keyword, the
source keeps the LAST one, while the first-matching-line-wins reading of the
claim keeps the first, so the claim as stated is false on this input. -/
theorem structure_note_not_first_wins :
    generate_structured_note "chief complaint: headache\nchief complaint: nausea" ≠
      generate_structured_note_firstWins
        "chief complaint: headache\nchief complaint: nausea" ∧
    (generate_structured_note
        "chief complaint: headache\nchief complaint: nausea").history_of_present_illness =
      "chief complaint: nausea" ∧
    (generate_structured_note_firstWins
        "chief complaint: headache\nchief complaint: nausea").history_of_present_illness =
      "chief complaint: headache" := by
  refine ⟨by decide, by decide, by decide⟩

/-- C6 amended: each line goes to at most one of the four sections (the
`elif` chain, expressed by the pairwise-exclusive predicates `histKey`,
`peKey`, `asKey`, `plKey`); for each section the LAST matching line wins;
a line matching no indicator appears in no section. -/
theorem structure_note_sections (raw_note : String) :
    (generate_structured_note raw_note).history_of_present_illness =
      ((pySplit '\n' raw_note).filter histKey).getLastD "" ∧
    (generate_structured_note raw_note).physical_exam =
      ((pySplit '\n' raw_note).filter peKey).getLastD "" ∧
    (generate_structured_note raw_note).assessment =
      ((pySplit '\n' raw_note).filter asKey).getLastD "" ∧
    (generate_structured_note raw_note).plan =
      ((pySplit '\n' raw_note).filter plKey).getLastD "" :=
  ⟨foldl_noteStep_hist _ _, foldl_noteStep_pe _ _, foldl_noteStep_as _ _,
   foldl_noteStep_pl _ _⟩

/-- C2: `log_audit` appends exactly one audit entry per call, whose status
is `success` exactly when the wrapped operation returned and `error` (with
the failure detail) when it raised; the wrapped operation's result or
original exception, its emitted events, and every other table are passed
through unchanged. -/
theorem log_audit_one_entry (uid : Option Nat) (action resource_type resource_id : String)
    (details : List (String × String)) (ip : String) (now : Nat) (fn : Handler)
    (st : DBState) :
    (log_audit uid action resource_type resource_id details ip now fn st).1.audit_logs =
      (fn st).1.audit_logs ++
        [AuditLog.mk uid action resource_type resource_id ip
          (match (fn st).2.2 with | Except.ok _ => "success" | Except.error _ => "error")
          (match (fn st).2.2 with
            | Except.ok _ => details
            | Except.error e => [("error", e)])
          now] ∧
    (log_audit uid action resource_type resource_id details ip now fn st).2.2 =
      (fn st).2.2 ∧
    (log_audit uid action resource_type resource_id details ip now fn st).2.1 =
      (fn st).2.1 ∧
    (log_audit uid action resource_type resource_id details ip now fn st).1.users =
      (fn st).1.users ∧
    (log_audit uid action resource_type resource_id details ip now fn st).1.hospitals =
      (fn st).1.hospitals ∧
    (log_audit uid action resource_type resource_id details ip now fn st).1.patients =
      (fn st).1.patients ∧
    (log_audit uid action resource_type resource_id details ip now fn st).1.alerts =
      (fn st).1.alerts := by
  cases h : (fn st).2.2 with
  | ok r => simp [log_audit, h]
  | error e => simp [log_audit, h]

/-- C4: an outright perimeter denial by `require_role` (actor unresolved or
role outside the allowed set) returns `403 Forbidden` and leaves the whole
state — the audit ledger included — untouched, never invoking the wrapped
operation; in particular a field responder (`paramedic`) calling the
admin-only audit-log route is denied with no new ledger entry. -/
theorem require_role_denies_without_audit (allowed_roles : List String) (uid : Option Nat)
    (fn : Handler) (st : DBState)
    (hdeny : ∀ u, resolveUser uid st = some u → u.role ∉ allowed_roles) :
    require_role allowed_roles uid fn st =
      (st, [], Except.ok (RespBody.errMsg "Insufficient permissions", 403)) ∧
    (∀ uid2 u2, resolveUser uid2 st = some u2 → u2.role = "paramedic" →
      get_audit_logs_route uid2 st =
        (st, [], Except.ok (RespBody.errMsg "Insufficient permissions", 403))) := by
  constructor
  · cases h : resolveUser uid st with
    | none => simp [require_role, h]
    | some u =>
      have hu := hdeny u h
      simp [require_role, h, hu]
  · intro uid2 u2 h2 hrole
    simp [get_audit_logs_route, require_role, h2, hrole]

/-- C4 witness: the field responder `medicUser` is denied on the audit-log
route and the database (so the ledger) is unchanged. -/
theorem require_role_denies_without_audit_witness :
    get_audit_logs_route (some 1) medicSt =
      (medicSt, [], Except.ok (RespBody.errMsg "Insufficient permissions", 403)) :=
  (require_role_denies_without_audit ["admin"] none get_audit_logs_body medicSt
      (by intro u hu; simp [resolveUser] at hu)).2
    (some 1) medicUser rfl rfl

/-- C8: `update_patient_vitals` on a case id that does not resolve returns
`404 Not Found`, changes no persisted state, and publishes no event. -/
theorem update_vitals_not_found (now : Nat) (patient_id : String) (req : VitalsReq)
    (st : DBState)
    (h : st.patients.find? (fun p => p.patient_id = patient_id) = none) :
    update_patient_vitals_body now patient_id req st =
      (st, [], Except.ok (RespBody.errMsg "Patient not found", 404)) := by
  simp [update_patient_vitals_body, h]

/-- C8 witness: an unknown case id against the empty store. -/
theorem update_vitals_not_found_witness :
    update_patient_vitals_body 7 "PAT-404" hrOnlyReq emptySt =
      (emptySt, [], Except.ok (RespBody.errMsg "Patient not found", 404)) :=
  update_vitals_not_found 7 "PAT-404" hrOnlyReq emptySt rfl

/-- C9: on an existing case, `update_patient_vitals` overwrites exactly the
provided vitals fields, retains every unspecified vitals field, leaves all
non-vitals fields of the case and every other table unchanged, refreshes
`updated_at`, returns 200, and publishes exactly one `patient_vitals_update`
event to the case topic `patient_<id>`. -/
theorem update_vitals_merge_frame (now : Nat) (patient_id : String) (req : VitalsReq)
    (st : DBState) (p : Patient)
    (h : st.patients.find? (fun q => q.patient_id = patient_id) = some p) :
    ∃ p1 : Patient,
      update_patient_vitals_body now patient_id req st =
        (DBState.mk st.users st.hospitals
          (st.patients.map (fun q => if q.id = p.id then p1 else q)) st.alerts
          st.audit_logs,
         [EmittedEvent.mk "patient_vitals_update" ("patient_" ++ patient_id)],
         Except.ok (RespBody.vitalsUpdated now, 200)) ∧
      p1.heart_rate = req.heart_rate.getD p.heart_rate ∧
      p1.blood_pressure = req.blood_pressure.getD p.blood_pressure ∧
      p1.oxygen_saturation = req.oxygen_saturation.getD p.oxygen_saturation ∧
      p1.temperature = req.temperature.getD p.temperature ∧
      p1.respiratory_rate = req.respiratory_rate.getD p.respiratory_rate ∧
      p1.id = p.id ∧ p1.patient_id = p.patient_id ∧
      p1.demographics = p.demographics ∧ p1.medical_history = p.medical_history ∧
      p1.chief_complaint = p.chief_complaint ∧ p1.triage_level = p.triage_level ∧
      p1.risk_score = p.risk_score ∧ p1.ambulance_id = p.ambulance_id ∧
      p1.origin_latitude = p.origin_latitude ∧ p1.origin_longitude = p.origin_longitude ∧
      p1.destination_hospital_id = p.destination_hospital_id ∧
      p1.estimated_arrival = p.estimated_arrival ∧ p1.created_at = p.created_at ∧
      p1.updated_at = now := by
  simp only [update_patient_vitals_body, h]
  exact ⟨_, rfl, rfl, rfl, rfl, rfl, rfl, rfl, rfl, rfl, rfl, rfl, rfl, rfl, rfl, rfl,
    rfl, rfl, rfl, rfl, rfl⟩

/-- C9 witness: updating only the heart rate of `basePatient` publishes one
event to its case topic. -/
theorem update_vitals_merge_frame_witness :
    (update_patient_vitals_body 200 "PAT-100" hrOnlyReq baseSt).2.1 =
      [EmittedEvent.mk "patient_vitals_update" ("patient_" ++ "PAT-100")] := by
  obtain ⟨p1, heq, hrest⟩ :=
    update_vitals_merge_frame 200 "PAT-100" hrOnlyReq baseSt basePatient rfl
  rw [heq]

/-- C10: `login` succeeds (HTTP 200) exactly when the username resolves to
a stored account and the supplied password is the literal `'temp'`; the
stored credential hash and the active flag are never consulted — rewriting
all of them changes nothing about the response. -/
theorem login_iff_temp (username password : String) (st : DBState)
    (hashes : Nat → String) (actives : Nat → Bool) :
    ((login_body username password st).2 = 200 ↔
      (st.users.find? (fun u => u.username = username)).isSome ∧ password = "temp") ∧
    login_body username password (scrubUsers hashes actives st) =
      login_body username password st := by
  have hmap : (scrubUsers hashes actives st).users.find?
      (fun u => u.username = username) =
      (st.users.find? (fun u => u.username = username)).map
        (fun u => User.mk u.id u.username u.email (hashes u.id) u.role u.hospital_id
          u.ambulance_id (actives u.id)) := by
    simp only [scrubUsers, List.find?_map]
    rfl
  constructor
  · cases h : st.users.find? (fun u => u.username = username) with
    | none => simp [login_body, h]
    | some u => by_cases hp : password = "temp" <;> simp [login_body, h, hp]
  · cases h : st.users.find? (fun u => u.username = username) with
    | none => simp [login_body, hmap, h]
    | some u => by_cases hp : password = "temp" <;> simp [login_body, hmap, h, hp]

/-- `List.foldl max` returns the seed or a list element. -/
theorem foldl_max_mem (t : List Rat) (a : Rat) :
    t.foldl max a = a ∨ t.foldl max a ∈ t := by
  induction t generalizing a with
  | nil => left; rfl
  | cons b t ih =>
    rcases ih (max a b) with h | h
    · rcases max_choice a b with hm | hm
      · left; rw [List.foldl_cons, h, hm]
      · right; rw [List.foldl_cons, h, hm]; exact List.mem_cons_self _ _
    · right; exact List.mem_cons_of_mem _ h

/-- Python `max` returns an element of its input. -/
theorem pyMax_mem (l : List Rat) (c : Rat) (h : pyMax l = some c) : c ∈ l := by
  cases l with
  | nil => simp [pyMax] at h
  | cons a t =>
    have hc : t.foldl max a = c := by simpa [pyMax] using h
    rcases foldl_max_mem t a with h1 | h1
    · rw [hc] at h1; rw [← h1]; exact List.mem_cons_self _ _
    · rw [hc] at h1; exact List.mem_cons_of_mem _ h1

/-- `esi_mapping.get(prediction, 'ESI-3')` always lands in the tier set. -/
theorem esi_level_mem (n : Nat) : (esiMapping n).getD "ESI-3" ∈ tierList := by
  rcases n with _ | _ | _ | _ | _ | n
  · decide
  · decide
  · decide
  · decide
  · decide
  · show (none : Option String).getD "ESI-3" ∈ tierList
    decide

/-- C5: on a trained model, a stored blood-pressure string that does not
parse as two numbers makes classification fail into the error-flagged
neutral result (the source's rendering of `MalformedVitals`: the raised
`ValueError`/`IndexError` is caught and surfaced as the `error` field),
while missing vital fields never fail: they default (`age` to 50, the bp
string to `'120/80'`, every other vital to 0), and an absent `age` key is
interchangeable with an explicit 50. -/
theorem triage_malformed_bp_missing_defaults (rf : RFModel)
    (patient_vitals : List (String × PyVal)) (bp : String)
    (hbp : dictGet patient_vitals "blood_pressure" = some (PyVal.vstr bp))
    (hmal : parseBP bp = none) :
    (∃ m, predict_triage_level (some rf) patient_vitals =
      TriageResult.mk "ESI-3" 0 none (some m) none) ∧
    extractFeatures [] = Except.ok [50, 0, 120, 80, 0, 0, 0] ∧
    (∀ pv2 : List (String × PyVal), dictGet pv2 "age" = none →
      extractFeatures pv2 = extractFeatures (("age", PyVal.vnum 50) :: pv2)) := by
  refine ⟨?_, by
    simp [extractFeatures, dictGet, parseBP, pyFloat?, pyStrip, digitsToNat, floatOfVal,
      pySplit, splitCharAux], ?_⟩
  · have hext : ∃ e, extractFeatures patient_vitals = Except.error e := by
      unfold extractFeatures
      rcases hage : (dictGet patient_vitals "age").getD (PyVal.vnum 50) with _ | age | s | _ <;>
        simp [hage, hbp, hmal]
      cases floatOfVal ((dictGet patient_vitals "heart_rate").getD (PyVal.vnum 0)) <;>
        simp
    obtain ⟨e, he⟩ := hext
    exact ⟨e, by simp [predict_triage_level, he]⟩
  · intro pv2 hage
    have h2 : ∀ k : String, "age" ≠ k →
        dictGet (("age", PyVal.vnum 50) :: pv2) k = dictGet pv2 k := by
      intro k hk
      simp [dictGet, List.find?, hk]
    have h1 : dictGet (("age", PyVal.vnum 50) :: pv2) "age" = some (PyVal.vnum 50) := by
      simp [dictGet, List.find?]
    unfold extractFeatures
    rw [h1, h2 "heart_rate" (by decide), h2 "blood_pressure" (by decide),
      h2 "oxygen_sat" (by decide), h2 "respiratory_rate" (by decide),
      h2 "temperature" (by decide), hage]
    rfl

/-- C5 witness: a non-numeric blood pressure string on a trained model. -/
theorem triage_malformed_bp_missing_defaults_witness :
    ∃ m, predict_triage_level (some demoRF) [("blood_pressure", PyVal.vstr "abc")] =
      TriageResult.mk "ESI-3" 0 none (some m) none :=
  (triage_malformed_bp_missing_defaults demoRF [("blood_pressure", PyVal.vstr "abc")]
    "abc" rfl (by decide)).1

/-- C7: classification always yields a tier from the fixed five-tier set
and, granted the sklearn contract that predicted probabilities lie in
[0,1], a confidence in [0,1]; with an untrained model it is the fixed
neutral `ESI-3` with confidence 0 and the warning flag. -/
theorem triage_tier_and_confidence (model : Option RFModel)
    (patient_vitals : List (String × PyVal))
    (hprob : ∀ rf, model = some rf →
      ∀ feats p, p ∈ rf.rfPredictProba feats → 0 ≤ p ∧ p ≤ 1) :
    (predict_triage_level model patient_vitals).level ∈ tierList ∧
    0 ≤ (predict_triage_level model patient_vitals).confidence ∧
    (predict_triage_level model patient_vitals).confidence ≤ 1 ∧
    predict_triage_level none patient_vitals =
      TriageResult.mk "ESI-3" 0 (some "Model not trained") none none := by
  cases model with
  | none => exact ⟨by simp [predict_triage_level, tierList], by norm_num [predict_triage_level],
      by norm_num [predict_triage_level], rfl⟩
  | some rf =>
    cases hext : extractFeatures patient_vitals with
    | error e =>
      exact ⟨by simp [predict_triage_level, hext, tierList],
        by norm_num [predict_triage_level, hext],
        by norm_num [predict_triage_level, hext], rfl⟩
    | ok feats =>
      cases hmx : pyMax (rf.rfPredictProba feats) with
      | none =>
        exact ⟨by simp [predict_triage_level, hext, hmx, tierList],
          by norm_num [predict_triage_level, hext, hmx],
          by norm_num [predict_triage_level, hext, hmx], rfl⟩
      | some c =>
        have hc := hprob rf rfl feats c (pyMax_mem _ _ hmx)
        refine ⟨?_, ?_, ?_, rfl⟩
        · simpa [predict_triage_level, hext, hmx] using esi_level_mem (rf.rfPredict feats)
        · simpa [predict_triage_level, hext, hmx] using hc.1
        · simpa [predict_triage_level, hext, hmx] using hc.2

/-- C7 witness: the concrete trained model `demoRF` (valid probability row)
on the empty vitals dict, plus the untrained fallback. -/
theorem triage_tier_and_confidence_witness :
    (predict_triage_level (some demoRF) []).level ∈ tierList ∧
    0 ≤ (predict_triage_level (some demoRF) []).confidence ∧
    (predict_triage_level (some demoRF) []).confidence ≤ 1 ∧
    predict_triage_level none [] =
      TriageResult.mk "ESI-3" 0 (some "Model not trained") none none :=
  triage_tier_and_confidence (some demoRF) [] (by
    intro rf hrf feats p hp
    have h : demoRF = rf := Option.some.inj hrf
    subst h
    have hp2 : p ∈ [(1 : Rat)/10, 3/5, 1/10, 1/10, 1/10] := hp
    fin_cases hp2 <;> norm_num)

/-- C1 (documents the code bug): when no active facility exists, the case
row IS committed — with destination and estimated arrival unset — but the
handler then dereferences `destination_hospital.id` while building the
alert, raises, and its `except` turns that into an HTTP 400 error response:
the operation fails instead of succeeding; no alert row and no audit/event
side effects are produced by the body. -/
theorem create_patient_no_facility_400 (now key : Nat) (model : Option RFModel)
    (req : CreateReq) (st : DBState) (dfields mfields : JsonObj)
    (hno : st.hospitals.find? (fun h => h.is_active) = none)
    (hd : req.demographics.getD (JsonV.obj JsonObj.nil) = JsonV.obj dfields)
    (hm : req.medical_history.getD (JsonV.obj JsonObj.nil) = JsonV.obj mfields) :
    (create_patient_body now key model req st).2.2 =
      Except.ok (RespBody.errMsg
        "AttributeError: NoneType object has no attribute id", 400) ∧
    (create_patient_body now key model req st).2.1 = [] ∧
    (create_patient_body now key model req st).1.alerts = st.alerts ∧
    (create_patient_body now key model req st).1.audit_logs = st.audit_logs ∧
    (∃ patient : Patient,
      (create_patient_body now key model req st).1.patients = st.patients ++ [patient] ∧
      patient.destination_hospital_id = none ∧
      patient.estimated_arrival = none ∧
      patient.patient_id = "PAT-" ++ toString now) := by
  refine ⟨?_, ?_, ?_, ?_, ?_⟩
  · simp [create_patient_body, hd, hm, encryptPy, hno]
  · simp [create_patient_body, hd, hm, encryptPy, hno]
  · simp [create_patient_body, hd, hm, encryptPy, hno]
  · simp [create_patient_body, hd, hm, encryptPy, hno]
  · simp only [create_patient_body, hd, hm, encryptPy, hno]
    exact ⟨_, rfl, by simp, by simp, rfl⟩

/-- C1 witness: an intake request against a store with no facilities at
all ends in the 400 error response. -/
theorem create_patient_no_facility_400_witness :
    (create_patient_body 3 0 none emptyCreateReq emptySt).2.2 =
      Except.ok (RespBody.errMsg
        "AttributeError: NoneType object has no attribute id", 400) :=
  (create_patient_no_facility_400 3 0 none emptyCreateReq emptySt JsonObj.nil
    JsonObj.nil rfl rfl rfl).1
